import Mathlib

/-!
Verification development for the Watchy firmware library (`watchylib.py`).

The file shallowly embeds the three core components the specification talks
about -- the unit `LookupTable`, the e-paper `Display` update-sequence builder
and refresh state machine, and the BMA423 `Accelerometer` register driver --
and proves (or refutes) the spec's claims about them.

Conventions of the embedding:
* Python machine integers and register bytes are `Nat` (all values involved are
  non-negative and below 2^32, where overflow never occurs in the source).
* Python floats that the source produces by exact power-of-two or decimal
  arithmetic are modelled exactly: acceleration values and frame delays as
  `ℚ`, the lookup tables' decimal values as a mantissa/exponent pair `Dec`
  (every literal and every operation used by the source on these values is
  exact in binary64, so the exact models match the float semantics on the
  inputs that occur).
* Fallible code returns `Except PyError _`, with `PyError` distinguishing the
  Python exception classes the source can raise.
* Stateful code is explicit state passing over `structure`s mirroring the
  Python objects' attributes.
-/

namespace WatchyLib

/-- The Python exception kinds the modelled code can raise.
`runtimeError` carries the message of the corresponding `RuntimeError`;
`typeError`, `indexError` and `valueError` model `TypeError` (e.g. indexing a
`str` with a `str`), `IndexError` (e.g. `''[-1]`) and `ValueError`. -/
inductive PyError where
  | runtimeError (msg : String)
  | typeError
  | indexError
  | valueError
  deriving DecidableEq, Repr

instance {ε α : Type} [DecidableEq ε] [DecidableEq α] : DecidableEq (Except ε α) := fun a b =>
  match a, b with
  | .error e, .error f =>
    if h : e = f then .isTrue (by rw [h]) else .isFalse (by simp [h])
  | .error _, .ok _ => .isFalse (by simp)
  | .ok _, .error _ => .isFalse (by simp)
  | .ok x, .ok y =>
    if h : x = y then .isTrue (by rw [h]) else .isFalse (by simp [h])

/-! ## Unit lookup table (`class LookupTable`) -/

/-- `LookupTable.metricScalars`: metric-prefix letter to decimal exponent
(source line 212).  Note the upper-case entries are unreachable from `lookup`,
which lower-cases the key first; they are kept to mirror the source. -/
def metricScalars : List (Char × Int) :=
  [('m', -3), ('u', -6), ('n', -9), ('p', -12), ('k', 3), ('M', 6), ('G', 9), ('T', 12)]

/-- A register code stored in a lookup table: plain byte values for numeric and
word tables, an (address, mask) pair for the `features` multiword table. -/
inductive Code where
  | nat (n : Nat)
  | pair (a b : Nat)
  deriving DecidableEq, Repr

/-- An exact decimal number `man * 10 ^ exp`.  Every float the lookup tables
hold and every float `lookup` computes (decimal numeral times a power of ten)
denotes such a value exactly, so Python's float equality on them coincides
with equality of the denoted rationals, which `Dec.veq` decides. -/
structure Dec where
  man : Int
  exp : Int
  deriving DecidableEq, Repr

/-- The rational a `Dec` denotes. -/
def Dec.toRat (a : Dec) : ℚ := (a.man : ℚ) * 10 ^ a.exp

/-- Value equality of two decimals (equality of the denoted rationals,
decided by cross-scaling with integer arithmetic only). -/
def Dec.veq (a b : Dec) : Bool :=
  if a.exp ≤ b.exp then a.man = b.man * 10 ^ (b.exp - a.exp).toNat
  else a.man * 10 ^ (a.exp - b.exp).toNat = b.man

/-- Membership lookup in a numeric table by float value
(`key in table['values']` / `table['values'][key]` on a float-keyed dict). -/
def lookupDec (q : Dec) (vals : List (Dec × Nat)) : Option Nat :=
  (vals.find? (fun p => Dec.veq p.1 q)).map (·.2)

/-- The `values` payload of one lookup table, after the normalisation the
`LookupTable` constructor performs: numeric tables hold pre-scaled float keys
(exact decimals here), word tables hold lower-cased space-stripped string
keys, and the `multiword` table keeps its keys untouched (the constructor
only normalises tables of type `numeric` and `word`). -/
inductive TableVals where
  | numeric (unit : Option String) (vals : List (Dec × Nat))
  | word (vals : List (String × Nat))
  | multiword (vals : List (String × Nat × Nat))
  deriving DecidableEq

/-- `str.lower()` character-wise.  (Implemented over the character list so
that every step is structural recursion the proof checker can evaluate.) -/
def toLowerS (s : String) : String := ⟨s.data.map Char.toLower⟩

/-- Replacement loop of `str.replace(pat, rep)` over character lists:
replace non-overlapping occurrences left to right.  The fuel argument makes
the recursion structural; `l.length` fuel suffices because every step
consumes at least one character once `pat` is non-empty. -/
def replaceLAux (pat rep : List Char) : Nat → List Char → List Char
  | 0, l => l
  | _ + 1, [] => []
  | fuel + 1, c :: rest =>
    if pat.isPrefixOf (c :: rest) then
      rep ++ replaceLAux pat rep fuel ((c :: rest).drop pat.length)
    else c :: replaceLAux pat rep fuel rest

/-- `str.replace(pat, rep)`.  (The source never passes an empty pattern;
in that case the string is returned unchanged.) -/
def replaceS (s pat rep : String) : String :=
  if pat.data = [] then s else ⟨replaceLAux pat.data rep.data s.data.length s.data⟩

/-- `str.strip()`: remove leading and trailing whitespace. -/
def trimS (s : String) : String :=
  ⟨((s.data.dropWhile (·.isWhitespace)).reverse.dropWhile (·.isWhitespace)).reverse⟩

/-- `s[-1]` on a non-empty string (callers guard emptiness first). -/
def backS (s : String) : Char := s.data.getLast?.getD default

/-- `s[:-1]`. -/
def dropLastS (s : String) : String := ⟨s.data.dropLast⟩

/-- Name normalisation applied to table names (and word keys) at construction
and to the `table` argument of `lookup`: `.lower().replace(' ', '')`. -/
def normName (s : String) : String := replaceS (toLowerS s) " " ""

/-- `Accelerometer.opts` `'data rate'` table values (source lines 969-975),
keys pre-parsed to exact decimals (Hz): 0.78, 1.5, 3.1, 6.25, 12.5, 25, 50,
100, 200, 400, 800, 1600. -/
def dataRateVals : List (Dec × Nat) :=
  [(⟨78, -2⟩, 0x01), (⟨15, -1⟩, 0x02), (⟨31, -1⟩, 0x03), (⟨625, -2⟩, 0x04),
   (⟨125, -1⟩, 0x05), (⟨25, 0⟩, 0x06), (⟨50, 0⟩, 0x07), (⟨100, 0⟩, 0x08),
   (⟨200, 0⟩, 0x09), (⟨400, 0⟩, 0x0a), (⟨800, 0⟩, 0x0b), (⟨1600, 0⟩, 0x0c)]

/-- `'bandwidth'` table values (samples): 1, 2, 4, …, 128. -/
def bandwidthVals : List (Dec × Nat) :=
  [(⟨1, 0⟩, 0x00), (⟨2, 0⟩, 0x01), (⟨4, 0⟩, 0x02), (⟨8, 0⟩, 0x03),
   (⟨16, 0⟩, 0x04), (⟨32, 0⟩, 0x05), (⟨64, 0⟩, 0x06), (⟨128, 0⟩, 0x07)]

/-- `'acceleration range'` table values (g): 2, 4, 8, 16. -/
def accelRangeVals : List (Dec × Nat) :=
  [(⟨2, 0⟩, 0x00), (⟨4, 0⟩, 0x01), (⟨8, 0⟩, 0x02), (⟨16, 0⟩, 0x03)]

/-- `'cmd'` word table values, keys normalised by the constructor. -/
def cmdVals : List (String × Nat) :=
  [("nvmprog", 0xA0), ("fifoflush", 0xB0), ("softreset", 0xB6)]

/-- `'features'` multiword table values.  Its type `'multiword'` is neither
`'numeric'` nor `'word'`, so the constructor leaves the keys unnormalised. -/
def featureVals : List (String × Nat × Nat) :=
  [("step counter", 0x3B, 0x04), ("activity detection", 0x3B, 0x08),
   ("tilt detection", 0x40, 0x01), ("single tap detection", 0x3C, 0x01),
   ("double tap detection", 0x3E, 0x01)]

/-- `Accelerometer.opts.allData` after construction: table names normalised
(lower-case, spaces removed). -/
def opts : List (String × TableVals) :=
  [("datarate", .numeric (some "hz") dataRateVals),
   ("bandwidth", .numeric (some "sample") bandwidthVals),
   ("accelerationrange", .numeric (some "g") accelRangeVals),
   ("cmd", .word cmdVals),
   ("features", .multiword featureVals)]

/-- Unit stripping inside `lookup` for numeric tables (source lines 240-245):
four successive `str.replace` calls removing `unit + unit[-1] + 'es'`,
`unit + 'es'`, `unit + 's'` and `unit`. -/
def stripUnit (unit key : String) : String :=
  replaceS (replaceS (replaceS (replaceS key
    (unit ++ String.mk [backS unit] ++ "es") "")
    (unit ++ "es") "") (unit ++ "s") "") unit ""

/-- Value of a decimal digit character. -/
def digitVal (c : Char) : Nat := c.toNat - '0'.toNat

/-- Natural number denoted by a list of decimal digit characters. -/
def digitsToNat (l : List Char) : Nat := l.foldl (fun a c => 10 * a + digitVal c) 0

/-- Faithful model of Python `float()` on the numeral strings the source ever
passes to it: an optional sign followed by decimal digits with at most one
decimal point (at least one digit overall).  Returns `none` exactly when
Python's `float()` raises `ValueError` on such strings; the parsed value is
the exact decimal the numeral denotes. -/
def parseDec (s : String) : Option Dec :=
  let cs := s.data
  let (sign, cs) : Int × List Char :=
    match cs with
    | '-' :: t => (-1, t)
    | '+' :: t => (1, t)
    | t => (1, t)
  match cs.splitOn '.' with
  | [ip] =>
      if ip ≠ [] ∧ ip.all Char.isDigit then some ⟨sign * digitsToNat ip, 0⟩ else none
  | [ip, fp] =>
      if (ip ++ fp) ≠ [] ∧ (ip ++ fp).all Char.isDigit then
        some ⟨sign * digitsToNat (ip ++ fp), -(fp.length : Int)⟩
      else none
  | _ => none

/-- The numeral-processing part of `lookup` for a numeric table (source lines
239-257): strip the unit, read a metric-prefix letter off the end
(`key[-1]`, which raises `IndexError` on an empty string), parse the rest as a
float and scale by `10 ** scalar`.  Errors: `IndexError` when the stripped key
is empty, `RuntimeError` when the numeral does not parse. -/
def numericKeyVal (unit? : Option String) (key : String) : Except PyError Dec :=
  let k := match unit? with
    | some u => stripUnit u key
    | none => key
  if k.data.isEmpty then .error .indexError
  else
    let p : Int × String :=
      match metricScalars.lookup (backS k) with
      | some e => (e, dropLastS k)
      | none => (0, k)
    match parseDec p.2 with
    | none => .error (.runtimeError ("Key " ++ p.2 ++ " is not a valid number."))
    | some q => .ok ⟨q.man, q.exp + p.1⟩

/-- The body of `lookup` after the table has been fetched from `allData`
(source lines 233-262): reject a `None`/empty key, normalise the key, then
for numeric tables run the numeral pipeline and match the scaled value, and
for the other tables match the normalised key string. -/
def tableLookup (tname : String) (tv : TableVals) (key : Option String) :
    Except PyError Code :=
  if key = none ∨ key = some "" then .error (.runtimeError "Blank key.")
  else
    let k := normName (key.getD "")
    match tv with
    | .numeric unit? vals =>
      match numericKeyVal unit? k with
      | .error e => .error e
      | .ok q =>
        match lookupDec q vals with
        | some c => .ok (.nat c)
        | none => .error (.runtimeError ("Key not found in lookup table " ++ tname ++ "."))
    | .word vals =>
      match vals.lookup k with
      | some c => .ok (.nat c)
      | none => .error (.runtimeError ("Key not found in lookup table " ++ tname ++ "."))
    | .multiword vals =>
      match vals.lookup k with
      | some c => .ok (.pair c.1 c.2)
      | none => .error (.runtimeError ("Key not found in lookup table " ++ tname ++ "."))

/-- `LookupTable.lookup(table, key)` (source lines 229-262).  The `key`
argument is `Option String` so the `key == None` guard can be modelled.
Normalise the table name, look it up in `allData` (failing if absent), and
run the per-table lookup body. -/
def lookupT (table : String) (key : Option String) : Except PyError Code :=
  match opts.lookup (normName table) with
  | none => .error (.runtimeError ("Lookup table " ++ normName table ++ " not found."))
  | some tv => tableLookup (normName table) tv key

/-- `LookupTable.getkey(table, key)` (source lines 264-271), modelled exactly
as written.  The source normalises the table name with `.lower().strip()`
only (inner spaces survive, unlike the `allData` keys) and -- crucially --
never replaces the local `table` string with `self.allData[table]`: the
membership test `key in table['reversed']` indexes the *name string* with
`'reversed'`, which in Python raises `TypeError` unconditionally.  So the
function can never return: every call errors. -/
def getkeyT (table : String) (_code : Nat) : Except PyError Code :=
  let tname := trimS (toLowerS table)
  match opts.lookup tname with
  | none => .error (.runtimeError ("Lookup table " ++ tname ++ " not found."))
  | some _ =>
      -- `table` is still the name string here; `table['reversed']` raises
      -- TypeError before `code` is ever inspected.
      .error .typeError

/-! ## e-paper display driver (`class Display`) -/

/-- `Display.DELAY`: top bit marking a post-command delay parameter. -/
def DELAY : Nat := 0x80

/-- `Display.WIDTH` in pixels. -/
def WIDTH : Nat := 200

/-- `Display.HEIGHT` in pixels. -/
def HEIGHT : Nat := 200

/-- `Display.X_OFFSET`. -/
def X_OFFSET : Nat := 0

/-- `Display.Y_OFFSET`. -/
def Y_OFFSET : Nat := 0

/-- Gate-setting constants (`EVEN_FIRST | NO_INTERLACE | SCAN_FORWARD`). -/
def GATE_SETTINGS : Nat := 0x0 ||| 0x0 ||| 0x0

/-- Panel colour bit constants (source lines 333-343). -/
def RED_ENABLE : Nat := 0x00
def RED_DISABLE : Nat := 0x40
def RED_INVERT : Nat := 0x80
def BLACK_ENABLE : Nat := 0x00
def BLACK_DISABLE : Nat := 0x04
def BLACK_INVERT : Nat := 0x08

/-- RAM entry mode (`X_FORWARDS | Y_FORWARDS | RIGHT_THEN_DOWN`). -/
def ENTRY_MODE : Nat := 0x01 ||| 0x02 ||| 0x00

/-- Temperature sensor source byte (`INTERNAL_SENSOR`). -/
def INTERNAL_SENSOR : Nat := 0x80

/-- Update-sequence-control bit constants (source lines 365-374). -/
def U_CLOCK_ON : Nat := 0x80
def U_ANALOG_ON : Nat := 0x40
def U_LOAD_TEMP : Nat := 0x20
def U_LOAD_LUT : Nat := 0x10
def U_DISP_MODE_1 : Nat := 0x00
def U_DISP_MODE_2 : Nat := 0x08
def U_OUTPUT : Nat := 0x04
def U_ANALOG_OFF : Nat := 0x02
def U_CLOCK_OFF : Nat := 0x01
def U_DISPLAY : Nat := U_OUTPUT ||| U_LOAD_LUT

/-- `Display.SLOW_UPDATE`: the slow/full controller update mode byte. -/
def SLOW_UPDATE : Nat :=
  U_CLOCK_ON ||| U_ANALOG_ON ||| U_LOAD_TEMP ||| U_DISPLAY |||
    U_DISP_MODE_1 ||| U_CLOCK_OFF ||| U_ANALOG_OFF

/-- `Display.FAST_UPDATE`: the fast/partial controller update mode byte
(clock-off/analog-off bits commented out in the source). -/
def FAST_UPDATE : Nat :=
  U_CLOCK_ON ||| U_ANALOG_ON ||| U_LOAD_TEMP ||| U_DISPLAY ||| U_DISP_MODE_2

/-- `Display.SLOW_UPDATE_TIME` (seconds). -/
def SLOW_UPDATE_TIME : ℚ := 5

/-- `Display.FAST_UPDATE_TIME` (seconds). -/
def FAST_UPDATE_TIME : ℚ := 1/5

/-- SSD1681 command bytes used in the update sequence (source lines 396-409). -/
def CMD_GATE_SETTING : Nat := 0x01
def CMD_ENTRY_MODE : Nat := 0x11
def CMD_SOFT_RESET : Nat := 0x12
def CMD_TEMP_SENSOR : Nat := 0x18
def CMD_PANEL_COLOURS : Nat := 0x21
def CMD_MASTER_ACTIVATE : Nat := 0x20
def CMD_UPDATE_SEQUENCE : Nat := 0x22
def CMD_BORDER_WAVEFORM : Nat := 0x3C
def CMD_X_WINDOW : Nat := 0x44
def CMD_Y_WINDOW : Nat := 0x45
def CMD_X_OFFSET : Nat := 0x4E
def CMD_Y_OFFSET : Nat := 0x4F

/-- The mutable attributes of a `Display` object that the update-sequence
builder and refresh machinery read or write.  `COLOUR_MODE`,
`BORDER_WAVEFORM`, `UPDATE_MODE` and `frameDelay` are instance shadows of the
class attributes, kept in sync by `_updateColours` and the `fastRefresh`
setter; the window fields mirror the source attribute names. -/
structure DisplayState where
  darkMode : Bool
  greyMode : Bool
  invertBorder : Bool
  fastRefresh : Bool
  /-- the stored `_fullRefresh` flag (the getter also ORs in `initialRefresh`). -/
  fullRefreshStored : Bool
  initialRefresh : Bool
  COLOUR_MODE : Nat
  BORDER_WAVEFORM : Nat
  UPDATE_MODE : Nat
  frameDelay : ℚ
  FIRST_COLUMN : Nat
  LAST_COLUMN : Nat
  FIRST_ROW : Nat
  LAST_ROW : Nat
  X_WINDOW_START : Nat
  X_WINDOW_END : Nat
  Y_WINDOW_START : Nat
  Y_WINDOW_END : Nat
  modeChanged : Bool
  /-- last update sequence handed to the hardware, `none` before the first
  rebuild (the Python attribute does not exist until then). -/
  updateSequence : Option (List Nat)
  deriving DecidableEq, Repr

/-- `Display.fullRefresh` property getter (source lines 516-518):
`self._fullRefresh or self.initialRefresh`. -/
def fullRefreshGet (s : DisplayState) : Bool := s.fullRefreshStored || s.initialRefresh

/-- The panel-colour byte `_updateColours` computes from the dark/grey flags
(source lines 453-462). -/
def colourModeOf (dark grey : Bool) : Nat :=
  if dark then
    if grey then RED_INVERT ||| BLACK_ENABLE else RED_DISABLE ||| BLACK_ENABLE
  else
    if grey then RED_INVERT ||| BLACK_INVERT else RED_DISABLE ||| BLACK_INVERT

/-- The border-waveform byte `_updateColours` computes:
`0x00` if `darkMode ^ invertBorder` else `0x01` (source lines 463-466). -/
def borderWaveformOf (dark invert : Bool) : Nat := if xor dark invert then 0x00 else 0x01

/-- `Display._updateColours` (source lines 452-467): recompute the panel
colour and border waveform bytes from the flags and mark the mode dirty. -/
def updateColours (s : DisplayState) : DisplayState :=
  { s with
    COLOUR_MODE := colourModeOf s.darkMode s.greyMode
    BORDER_WAVEFORM := borderWaveformOf s.darkMode s.invertBorder
    modeChanged := true }

/-- `darkMode` setter: store the flag then `_updateColours`. -/
def setDarkMode (b : Bool) (s : DisplayState) : DisplayState :=
  updateColours { s with darkMode := b }

/-- `greyMode` setter. -/
def setGreyMode (b : Bool) (s : DisplayState) : DisplayState :=
  updateColours { s with greyMode := b }

/-- `invertBorder` setter. -/
def setInvertBorder (b : Bool) (s : DisplayState) : DisplayState :=
  updateColours { s with invertBorder := b }

/-- `fastRefresh` setter (source lines 546-555): store the flag, select
`UPDATE_MODE` and `frameDelay`, mark dirty. -/
def setFastRefresh (b : Bool) (s : DisplayState) : DisplayState :=
  { s with
    fastRefresh := b
    UPDATE_MODE := if b then FAST_UPDATE else SLOW_UPDATE
    frameDelay := if b then FAST_UPDATE_TIME else SLOW_UPDATE_TIME
    modeChanged := true }

/-- `fullRefresh` setter (source lines 520-523): store and mark dirty. -/
def setFullRefresh (b : Bool) (s : DisplayState) : DisplayState :=
  { s with fullRefreshStored := b, modeChanged := true }

/-- `initialRefresh` setter (source lines 533-536): store and mark dirty. -/
def setInitialRefresh (b : Bool) (s : DisplayState) : DisplayState :=
  { s with initialRefresh := b, modeChanged := true }

/-- `Display.setWindow(x1, y1, x2, y2)` (source lines 566-575).  Note the
source computes the X window bytes with `>> 8`, unlike the class-level
defaults which use `>> 3`. -/
def setWindow (x1 y1 x2 y2 : Nat) (s : DisplayState) : DisplayState :=
  { s with
    FIRST_COLUMN := x1
    LAST_COLUMN := x2
    FIRST_ROW := y1
    LAST_ROW := y2
    X_WINDOW_START := x1 >>> 8
    X_WINDOW_END := x2 >>> 8
    Y_WINDOW_START := y1
    Y_WINDOW_END := y2
    modeChanged := true }

/-- The state `Display.__init__` leaves behind (source lines 414-433): class
defaults for the window fields (`FIRST_COLUMN >> 3` etc.), then
`_updateColours()`, then `fastRefresh = True` (setter), `_fullRefresh = False`
(direct attribute write), `initialRefresh = True` (setter). -/
def initD : DisplayState :=
  setInitialRefresh true <| setFastRefresh true <| updateColours
    { darkMode := false
      greyMode := false
      invertBorder := false
      fastRefresh := false
      fullRefreshStored := false
      initialRefresh := false
      COLOUR_MODE := RED_DISABLE ||| BLACK_INVERT
      BORDER_WAVEFORM := 0x00
      UPDATE_MODE := SLOW_UPDATE
      frameDelay := SLOW_UPDATE_TIME
      FIRST_COLUMN := X_OFFSET
      LAST_COLUMN := X_OFFSET + WIDTH - 1
      FIRST_ROW := Y_OFFSET
      LAST_ROW := Y_OFFSET + HEIGHT - 1
      X_WINDOW_START := X_OFFSET >>> 3
      X_WINDOW_END := (X_OFFSET + WIDTH - 1) >>> 3
      Y_WINDOW_START := Y_OFFSET
      Y_WINDOW_END := Y_OFFSET + HEIGHT - 1
      modeChanged := false
      updateSequence := none }

/-- The local `updateMode` chosen at the top of `_rebuildUpdateSequence`
(source lines 608-611): `SLOW_UPDATE` when `initialRefresh`, else the
current `UPDATE_MODE` (which the `fastRefresh` setter keeps equal to
`FAST_UPDATE`/`SLOW_UPDATE`). -/
def seqUpdateMode (s : DisplayState) : Nat :=
  if s.initialRefresh then SLOW_UPDATE else s.UPDATE_MODE

/-- First `bytes([...])` block of `_rebuildUpdateSequence` (source lines
614-624): soft reset + delay, gate setting, border waveform, temperature
sensor, panel colours, entry mode. -/
def baseSeg (s : DisplayState) : List Nat :=
  [CMD_SOFT_RESET, DELAY, 20,
   CMD_GATE_SETTING, 3,
     (WIDTH - 1) &&& 0xFF,
     ((WIDTH - 1) >>> 8) &&& 0xFF,
     GATE_SETTINGS,
   CMD_BORDER_WAVEFORM, 1, s.BORDER_WAVEFORM,
   CMD_TEMP_SENSOR, 1, INTERNAL_SENSOR,
   CMD_PANEL_COLOURS, 2, s.COLOUR_MODE, 0x00,
   CMD_ENTRY_MODE, 1, ENTRY_MODE]

/-- Partial-update LUT override block, appended when
`fastRefresh and not fullRefresh` (source lines 626-629). -/
def lutSeg (s : DisplayState) : List Nat :=
  if s.fastRefresh && !fullRefreshGet s then
    [0x37, 10, 0x00, 0xFF, 0xFF, 0xFF, 0xFF, 0x0F, 0x00, 0x00, 0x00, 0x00]
  else []

/-- Ghost-suppression block, appended when `not fullRefresh`, selected by
`darkMode` (source lines 631-643). -/
def ghostSeg (s : DisplayState) : List Nat :=
  if !fullRefreshGet s then
    if !s.darkMode then
      [0x0C, 4, 0xFB, 0x89, 0xF6, 0x0F,
       0x04, 3, 0x4B, 0xF0, 0x0A,
       0x03, 1, 0x12]
    else
      [0x03, 1, 0x10,
       0x04, 3, 0x4B, 0xF0, 0x0A,
       0x0C, 4, 0xFB, 0x89, 0xF6, 0x35]
  else []

/-- Window/offset block up to and excluding the update-sequence-control
command (source lines 645-657). -/
def winHead (s : DisplayState) : List Nat :=
  [CMD_X_WINDOW, 2,
     s.X_WINDOW_START,
     s.X_WINDOW_END,
   CMD_Y_WINDOW, 4,
     s.Y_WINDOW_START &&& 0xFF,
     (s.Y_WINDOW_START >>> 8) &&& 0xFF,
     s.Y_WINDOW_END &&& 0xFF,
     (s.Y_WINDOW_END >>> 8) &&& 0xFF,
   CMD_X_OFFSET, 1, X_OFFSET,
   CMD_Y_OFFSET, 2,
     Y_OFFSET &&& 0xFF,
     (Y_OFFSET >>> 8) &&& 0xFF]

/-- Window block including the `CMD_UPDATE_SEQUENCE` control byte
(source lines 645-659). -/
def winSeg (s : DisplayState) : List Nat :=
  winHead s ++ [CMD_UPDATE_SEQUENCE, 1, seqUpdateMode s]

/-- The alternate panel colour byte used by the double-flash pass
(source lines 666-672). -/
def altColourOf (s : DisplayState) : Nat :=
  if s.greyMode then s.COLOUR_MODE
  else if s.darkMode then RED_INVERT ||| BLACK_INVERT
  else RED_INVERT ||| BLACK_ENABLE

/-- Double-flash pass appended when `fastRefresh and not fullRefresh`
(source lines 661-682): alternate colour + update, master activate, restore
colour + update. -/
def dblSeg (s : DisplayState) : List Nat :=
  if s.fastRefresh && !fullRefreshGet s then
    [CMD_PANEL_COLOURS, 2, altColourOf s, 0x00,
     CMD_UPDATE_SEQUENCE, 1, seqUpdateMode s,
     CMD_MASTER_ACTIVATE, 0,
     CMD_PANEL_COLOURS, 2, s.COLOUR_MODE, 0x00,
     CMD_UPDATE_SEQUENCE, 1, seqUpdateMode s]
  else []

/-- The byte sequence `Display._rebuildUpdateSequence` assembles (source
lines 607-682), as the concatenation of its `bytes([...])` blocks. -/
def rebuildSeq (s : DisplayState) : List Nat :=
  baseSeg s ++ lutSeg s ++ ghostSeg s ++ winSeg s ++ dblSeg s

/-- State effect of `_rebuildUpdateSequence`: store the assembled sequence
(handed to `display.update_refresh_mode` together with `frameDelay`) and
clear the dirty flag (source lines 684-685). -/
def rebuildUpdateSequence (s : DisplayState) : DisplayState :=
  { s with updateSequence := some (rebuildSeq s), modeChanged := false }

/-- `Display.refresh` (source lines 588-600): rebuild if dirty, run the
hardware refresh (the source retries a busy controller until it succeeds, so
the completed call is modelled as one successful refresh), then clear
`initialRefresh` through its setter if it was set. -/
def refreshD (s : DisplayState) : DisplayState :=
  let s := if s.modeChanged then rebuildUpdateSequence s else s
  if s.initialRefresh then setInitialRefresh false s else s

/-- One caller-visible driver operation: the public mode setters, `setWindow`
and `refresh`.  (`initialRefresh` is auto-managed by construction and
`refresh`; the spec treats it as not caller-assigned.) -/
inductive DAction where
  | dark (b : Bool)
  | grey (b : Bool)
  | border (b : Bool)
  | fast (b : Bool)
  | full (b : Bool)
  | window (x1 y1 x2 y2 : Nat)
  | refresh
  deriving DecidableEq, Repr

/-- Apply one driver operation to a display state. -/
def applyA (a : DAction) (s : DisplayState) : DisplayState :=
  match a with
  | .dark b => setDarkMode b s
  | .grey b => setGreyMode b s
  | .border b => setInvertBorder b s
  | .fast b => setFastRefresh b s
  | .full b => setFullRefresh b s
  | .window x1 y1 x2 y2 => setWindow x1 y1 x2 y2 s
  | .refresh => refreshD s

/-- Run a list of driver operations from the freshly constructed display. -/
def runD (acts : List DAction) : DisplayState :=
  acts.foldl (fun s a => applyA a s) initD

/-- The derived attributes a reachable `Display` object always keeps in sync
with its flags (established by `_updateColours` and the `fastRefresh`
setter). -/
def wellFormedD (s : DisplayState) : Prop :=
  s.COLOUR_MODE = colourModeOf s.darkMode s.greyMode ∧
  s.BORDER_WAVEFORM = borderWaveformOf s.darkMode s.invertBorder ∧
  s.UPDATE_MODE = (if s.fastRefresh then FAST_UPDATE else SLOW_UPDATE)

instance (s : DisplayState) : Decidable (wellFormedD s) := by
  unfold wellFormedD; infer_instance

/-! ## BMA423 accelerometer driver (`class Accelerometer`) -/

/-- `Accelerometer._MAX_TRANSFER_LENGTH`: maximum i2c burst length. -/
def MAX_TRANSFER_LENGTH : Nat := 8

/-- `Accelerometer._BMA423_ID`: expected device id. -/
def BMA423_ID : Nat := 0x13

/-- The writable register fields of the accelerometer that `reset` and the
validated setters touch.  Field names follow the source's register
descriptors (`_advPowerSave`, `_accPerfMode`, `_accEn`, `_accOdr`, `_accBwp`,
`_accRange`, `_initCtrl`, `_cmd`). -/
structure AccelState where
  advPowerSave : Bool
  accPerfMode : Bool
  accEn : Bool
  accOdr : Nat
  accBwp : Nat
  accRange : Nat
  initCtrl : Nat
  cmdReg : Nat
  deriving DecidableEq, Repr

/-- `Accelerometer.lowPowerMode` getter (source lines 1116-1117):
`self._advPowerSave and not self._accPerfMode`. -/
def lowPowerMode (s : AccelState) : Bool := s.advPowerSave && !s.accPerfMode

/-- `lowPowerMode` setter (source lines 1119-1123): write `_advPowerSave`,
wait 450 µs (hardware timing, not modelled), then write `_accPerfMode` to the
negation. -/
def setLowPowerMode (value : Bool) (s : AccelState) : AccelState :=
  { s with advPowerSave := value, accPerfMode := !value }

/-- Register state after a BMA423 soft reset (datasheet power-on reset
values of the modelled registers: `PWR_CONF` advanced-power-save on,
`ACC_CONF = 0xA8` so odr 0x08 / bwp 2 / performance bit set, `ACC_RANGE`
0x02, `PWR_CTRL` 0 so the accelerometer is disabled).  The claims only rely
on these being the pre-default values that `reset` would later overwrite. -/
def powerOnState : AccelState :=
  { advPowerSave := true
    accPerfMode := true
    accEn := false
    accOdr := 0x08
    accBwp := 0x02
    accRange := 0x02
    initCtrl := 0x00
    cmdReg := 0x00 }

/-- Environment behaviour of the i2c bus and chip during `reset`:
the device id read at entry, the feature-window readback used by the config
verify (`rb offset written = bytes the burst read returns`), the internal
status the chip reports after the config is applied, and the chip error flag
consulted by `_writeChecks`. -/
structure BusEnv where
  deviceId : Nat
  rb : Nat → List Nat → List Nat
  internalStatus : Nat
  errorFlag : Bool

/-- `Accelerometer._featureAddress` setter validation (source lines
1101-1106): fail with `ValueError` outside `[0, 0x2000 - transferSize]`
(addresses are naturals here, so only the upper bound can trip). -/
def setFeatureAddress (value : Nat) : Except PyError Nat :=
  if value > 0x2000 - MAX_TRANSFER_LENGTH then .error .valueError else .ok value

/-- The 8-byte chunk of `config` at `offset`: `config[offset:offset+8]`. -/
def chunkAt (config : List Nat) (off : Nat) : List Nat :=
  (config.drop off).take MAX_TRANSFER_LENGTH

/-- The offsets `range(0, len(config), 8)` iterates over. -/
def chunkOffsets (config : List Nat) : List Nat :=
  (List.range ((config.length + 7) / 8)).map (8 * ·)

/-- The chunk loop of `_loadMainConfig` (source lines 1320-1326): for each
offset set the feature-address window (propagating its `ValueError`), burst
write the chunk, burst read it back through `rb` and fail with the verify
error on mismatch.  Returns the transcript of (offset, chunk) writes
performed. -/
def loadChunks (rb : Nat → List Nat → List Nat) (config : List Nat) :
    List Nat → Except PyError (List (Nat × List Nat))
  | [] => .ok []
  | off :: rest =>
    match setFeatureAddress off with
    | .error e => .error e
    | .ok _ =>
      let data := chunkAt config off
      if rb off data ≠ data then .error (.runtimeError "ACCEL: Config verify failed.")
      else
        match loadChunks rb config rest with
        | .error e => .error e
        | .ok r => .ok ((off, data) :: r)

/-- `Accelerometer._loadMainConfig(config)` (source lines 1308-1326).
Guards in source order: low-power mode, `len >= 0x2000`, `len % 8 != 0`;
then the verified chunk loop. -/
def loadMainConfig (rb : Nat → List Nat → List Nat) (lowPower : Bool)
    (config : List Nat) : Except PyError (List (Nat × List Nat)) :=
  if lowPower then .error (.runtimeError "ACCEL: Cannot load config in low power mode.")
  else if config.length ≥ 0x2000 then .error (.runtimeError "ACCEL: Config too large.")
  else if config.length % 8 ≠ 0 then
    .error (.runtimeError "ACCEL: Config size must be a multiple of eight.")
  else loadChunks rb config (chunkOffsets config)

/-- `Accelerometer._writeChecks` (source lines 1297-1301): fail if the chip
reports an error; the low-power settle delay is timing only. -/
def writeChecks (env : BusEnv) : Except PyError Unit :=
  if env.errorFlag then .error (.runtimeError "ACCEL: ERROR") else .ok ()

/-- `Accelerometer._runCmd('softReset')` (source lines 1077-1085): look the
opcode up (soft reset skips the ready pre-wait), write it to `_cmd`; writing
`0xB6` makes the chip perform a soft reset, so the register file returns to
its power-on state. -/
def runCmdSoftReset (s : AccelState) : Except PyError AccelState :=
  match lookupT "cmd" (some "softReset") with
  | .error e => .error e
  | .ok (.nat c) => .ok (if c = 0xB6 then powerOnState else { s with cmdReg := c })
  | .ok (.pair _ _) => .error .typeError

/-- `dataRate` setter (source lines 1139-1143): validate through the lookup
table, run `_writeChecks`, then write `_accOdr`. -/
def setDataRate (env : BusEnv) (key : String) (s : AccelState) :
    Except PyError AccelState :=
  match lookupT "data rate" (some key) with
  | .error e => .error e
  | .ok (.nat v) =>
    match writeChecks env with
    | .error e => .error e
    | .ok _ => .ok { s with accOdr := v }
  | .ok (.pair _ _) => .error .typeError

/-- `bandwidthParameter` setter (source lines 1155-1159). -/
def setBandwidthParameter (env : BusEnv) (key : String) (s : AccelState) :
    Except PyError AccelState :=
  match lookupT "bandwidth" (some key) with
  | .error e => .error e
  | .ok (.nat v) =>
    match writeChecks env with
    | .error e => .error e
    | .ok _ => .ok { s with accBwp := v }
  | .ok (.pair _ _) => .error .typeError

/-- `accelerationRange` setter (source lines 1165-1169). -/
def setAccelerationRange (env : BusEnv) (key : String) (s : AccelState) :
    Except PyError AccelState :=
  match lookupT "acceleration range" (some key) with
  | .error e => .error e
  | .ok (.nat v) =>
    match writeChecks env with
    | .error e => .error e
    | .ok _ => .ok { s with accRange := v }
  | .ok (.pair _ _) => .error .typeError

/-- Result of a `reset` run: the register state reached and the outcome
(`ok` or the exception that aborted it). -/
structure ResetOutcome where
  state : AccelState
  result : Except PyError Unit
  deriving Repr

/-- `Accelerometer.reset` (source lines 1029-1069), starting from register
state `s0`: check the device id; soft reset; disable low-power mode; zero
`_initCtrl`; `_loadMainConfig` with the supplied config blob; set
`_initCtrl = 1`; sleep 150 ms then check the internal status; then apply the
post-init defaults (enable the accelerometer, data rate 50 Hz, bandwidth 2
samples, range 2 g) and re-enable low-power mode.  Any exception aborts the
remaining steps, leaving the state reached so far. -/
def resetA (env : BusEnv) (config : List Nat) (s0 : AccelState) : ResetOutcome :=
  if env.deviceId ≠ BMA423_ID then
    ⟨s0, .error (.runtimeError "ACCEL: Incorrect device ID")⟩
  else
    match runCmdSoftReset s0 with
    | .error e => ⟨s0, .error e⟩
    | .ok s1 =>
      let s2 := setLowPowerMode false s1
      let s3 := { s2 with initCtrl := 0x00 }
      match loadMainConfig env.rb (lowPowerMode s3) config with
      | .error e => ⟨s3, .error e⟩
      | .ok _ =>
        let s4 := { s3 with initCtrl := 0x01 }
        if env.internalStatus ≠ 0x01 then
          ⟨s4, .error (.runtimeError "ACCEL: Init timed out")⟩
        else
          let s5 := { s4 with accEn := true }
          match setDataRate env "50 Hz" s5 with
          | .error e => ⟨s5, .error e⟩
          | .ok s6 =>
            match setBandwidthParameter env "2 samples" s6 with
            | .error e => ⟨s6, .error e⟩
            | .ok s7 =>
              match setAccelerationRange env "2g" s7 with
              | .error e => ⟨s7, .error e⟩
              | .ok s8 => ⟨setLowPowerMode true s8, .ok ()⟩

/-- Sign extension from 12 bits, as the register library performs for the
`signed=True` 12-bit fields. -/
def signExtend12 (v : Nat) : Int :=
  if v < 2048 then (v : Int) else (v : Int) - 4096

/-- Reading one `_accX`-style field (source lines 896-898 and the register
library semantics): combine the two register bytes little-endian
(`lo + (hi << 8)`, the bytes occupy disjoint bit ranges), shift right by the
lowest bit 4, mask to 12 bits, sign extend. -/
def readAccAxis (lo hi : Nat) : Int :=
  signExtend12 (((lo + (hi <<< 8)) >>> 4) % 4096)

/-- The register byte pair that encodes a signed 12-bit reading `r` in the
upper 12 bits of the little-endian 16-bit pair (two's complement). -/
def encode12 (r : Int) : Nat × Nat :=
  let v := (r % 4096).toNat <<< 4
  (v % 256, v / 256)

/-- The scaling `Accelerometer.acceleration` applies to one axis (source
line 1182): `(axis + 1) / 2 ** (10 - self._accRange)`. -/
def accelScale (raw : Int) (rangeCode : Nat) : ℚ :=
  ((raw : ℚ) + 1) / 2 ^ (10 - rangeCode)

/-- `Accelerometer.acceleration` (source lines 1179-1183) from the raw
register bytes of the three axes and the `_accRange` code: read each 12-bit
signed axis value and scale it to g. -/
def accelerationFromRegs (xlo xhi ylo yhi zlo zhi rangeCode : Nat) : ℚ × ℚ × ℚ :=
  (accelScale (readAccAxis xlo xhi) rangeCode,
   accelScale (readAccAxis ylo yhi) rangeCode,
   accelScale (readAccAxis zlo zhi) rangeCode)

/-- Whether a driver operation is a `refresh` call. -/
def isRefreshA : DAction → Bool
  | .refresh => true
  | _ => false

/-! ## Helper lemmas -/

/-- The update-sequence-control command and its mode byte occur in every
built sequence, between the window block head and the double-flash tail. -/
theorem rebuildSeq_updateMode_decomp (s : DisplayState) :
    ∃ u v, rebuildSeq s = u ++ [CMD_UPDATE_SEQUENCE, 1, seqUpdateMode s] ++ v :=
  ⟨baseSeg s ++ lutSeg s ++ ghostSeg s ++ winHead s, dblSeg s, by
    simp [rebuildSeq, winSeg, List.append_assoc]⟩

/-- A completed `refresh` always leaves `initialRefresh` cleared. -/
theorem refreshD_initialRefresh (s : DisplayState) :
    (refreshD s).initialRefresh = false := by
  unfold refreshD
  cases hb : (if s.modeChanged then rebuildUpdateSequence s else s).initialRefresh
  · rw [if_neg (by simp [hb])]
    exact hb
  · rw [if_pos (by simp [hb])]
    rfl

/-- The non-`refresh` operations never touch `initialRefresh`. -/
theorem applyA_initialRefresh (a : DAction) (h : a ≠ DAction.refresh)
    (s : DisplayState) : (applyA a s).initialRefresh = s.initialRefresh := by
  cases a <;> first
    | rfl
    | exact absurd rfl h

/-- Along any run of driver operations, `initialRefresh` holds exactly while
no `refresh` has executed. -/
theorem foldl_initialRefresh (acts : List DAction) (s : DisplayState) :
    (acts.foldl (fun s a => applyA a s) s).initialRefresh =
      (s.initialRefresh && acts.all (fun a => !isRefreshA a)) := by
  induction acts generalizing s with
  | nil => simp
  | cons a rest ih =>
    rw [List.foldl_cons, ih, List.all_cons]
    cases ha : isRefreshA a
    · have : a ≠ DAction.refresh := by
        cases a <;> simp_all [isRefreshA]
      rw [applyA_initialRefresh a this s]
      simp [ha]
    · have : a = DAction.refresh := by
        cases a <;> simp_all [isRefreshA]
      subst this
      simp [applyA, refreshD_initialRefresh]

/-- The non-`refresh` operations all leave the dirty flag set. -/
theorem applyA_modeChanged (a : DAction) (h : a ≠ DAction.refresh)
    (s : DisplayState) : (applyA a s).modeChanged = true := by
  cases a <;> first
    | rfl
    | exact absurd rfl h

/-- A refresh-free run from a dirty state stays dirty. -/
theorem foldl_modeChanged (acts : List DAction) (s : DisplayState)
    (hs : s.modeChanged = true) (h : ∀ a ∈ acts, a ≠ DAction.refresh) :
    (acts.foldl (fun s a => applyA a s) s).modeChanged = true := by
  induction acts generalizing s with
  | nil => exact hs
  | cons a rest ih =>
    rw [List.foldl_cons]
    exact ih _ (applyA_modeChanged a (h a (by simp)) s) fun b hb => h b (by simp [hb])

/-- For a well-sized config, every loop offset is a valid feature address. -/
theorem chunkOffsets_le (config : List Nat)
    (hmul : config.length % 8 = 0) (hlt : config.length < 0x2000) :
    ∀ off ∈ chunkOffsets config, off ≤ 0x2000 - MAX_TRANSFER_LENGTH := by
  intro off hoff
  unfold chunkOffsets at hoff
  obtain ⟨i, hi, rfl⟩ := List.mem_map.mp hoff
  have := List.mem_range.mp hi
  unfold MAX_TRANSFER_LENGTH
  omega

/-- When every chunk's readback matches, the loop writes every 8-byte chunk
at its offset and reports the full transcript. -/
theorem loadChunks_ok (rb : Nat → List Nat → List Nat) (config : List Nat)
    (offs : List Nat) (hle : ∀ off ∈ offs, off ≤ 0x2000 - MAX_TRANSFER_LENGTH)
    (hok : ∀ off ∈ offs, rb off (chunkAt config off) = chunkAt config off) :
    loadChunks rb config offs = .ok (offs.map fun off => (off, chunkAt config off)) := by
  induction offs with
  | nil => rfl
  | cons off rest ih =>
    unfold loadChunks setFeatureAddress
    rw [if_neg (by have := hle off (by simp); omega)]
    rw [if_neg (by have := hok off (by simp); simp [this])]
    rw [ih (fun o ho => hle o (by simp [ho])) (fun o ho => hok o (by simp [ho]))]
    simp

/-- When some chunk's readback mismatches, the loop fails with the config
verify error. -/
theorem loadChunks_err (rb : Nat → List Nat → List Nat) (config : List Nat)
    (offs : List Nat) (hle : ∀ off ∈ offs, off ≤ 0x2000 - MAX_TRANSFER_LENGTH)
    (hbad : ∃ off ∈ offs, rb off (chunkAt config off) ≠ chunkAt config off) :
    loadChunks rb config offs = .error (.runtimeError "ACCEL: Config verify failed.") := by
  induction offs with
  | nil => simp at hbad
  | cons off rest ih =>
    unfold loadChunks setFeatureAddress
    rw [if_neg (by have := hle off (by simp); omega)]
    by_cases h : rb off (chunkAt config off) = chunkAt config off
    · rw [if_neg (by simp [h])]
      obtain ⟨o, ho, hne⟩ := hbad
      rcases List.mem_cons.mp ho with rfl | ho
      · exact absurd h hne
      · rw [ih (fun o ho => hle o (by simp [ho])) ⟨o, ho, hne⟩]
    · rw [if_pos h]

/-! ## Claim theorems -/

/-- **C1** (refuting evaluation).  The claim states
`getkey(table, lookup(table, key)) == key` for the data-rate, bandwidth and
acceleration-range tables.  In the source, `getkey` never returns: its table
name is only `.lower().strip()`-normalised (so `'data rate'` and
`'acceleration range'` miss the space-stripped `allData` keys and raise the
table-not-found error), and even for a matching name the local `table` is
never replaced by `self.allData[table]`, so `key in table['reversed']`
indexes the name *string* and raises `TypeError`.  The round trip therefore
fails for every key of every one of the three tables. -/
theorem c1_getkey_lookup_roundtrip_broken :
    lookupT "data rate" (some "50 Hz") = .ok (.nat 0x07) ∧
    getkeyT "data rate" 0x07 =
      .error (.runtimeError "Lookup table data rate not found.") ∧
    (∀ c, getkeyT "datarate" c = .error .typeError) ∧
    (∀ c, getkeyT "bandwidth" c = .error .typeError) ∧
    (∀ c, getkeyT "acceleration range" c =
      .error (.runtimeError "Lookup table acceleration range not found.")) ∧
    (∀ c, getkeyT "accelerationrange" c = .error .typeError) :=
  ⟨by decide, by decide, fun _ => rfl, fun _ => rfl, fun _ => rfl, fun _ => rfl⟩

/-- **C2** (refuting evaluation).  The claim states that `fullRefresh = True`
forces the byte following `CMD_UPDATE_SEQUENCE` to `SLOW_UPDATE`.  In the
source the byte depends only on `initialRefresh` and `UPDATE_MODE` (set from
`fastRefresh`): after the first refresh, setting `fullRefresh = True` with
`fastRefresh` still enabled emits `FAST_UPDATE` (0xFC), not `SLOW_UPDATE`
(0xF7), contradicting the claim and the `fullRefresh` docstring ("all
refreshs will be slow refreshes"). -/
theorem c2_fullRefresh_fast_byte :
    fullRefreshGet (runD [.refresh, .full true]) = true ∧
    (runD [.refresh, .full true]).initialRefresh = false ∧
    (runD [.refresh, .full true]).fastRefresh = true ∧
    seqUpdateMode (runD [.refresh, .full true]) = FAST_UPDATE ∧
    (∃ u v, rebuildSeq (runD [.refresh, .full true]) =
      u ++ [CMD_UPDATE_SEQUENCE, 1, FAST_UPDATE] ++ v) ∧
    FAST_UPDATE ≠ SLOW_UPDATE := by
  have hm : seqUpdateMode (runD [.refresh, .full true]) = FAST_UPDATE := by decide
  obtain ⟨u, v, h⟩ := rebuildSeq_updateMode_decomp (runD [.refresh, .full true])
  exact ⟨by decide, by decide, by decide, hm, ⟨u, v, by rw [h, hm]⟩, by decide⟩

/-- **C3** (counterexample).  The claim's six-input purity fails in both
directions: two freshly constructed drivers differing only in `invertBorder`
agree on all six listed inputs yet build different sequences (the border
waveform byte differs), and changing the window input alone (`x1` from 0 to
1) leaves the built sequence byte-identical (the column bytes are `>> 8`
granular). -/
theorem c3_counterexample :
    ((runD []).darkMode = (runD [.border true]).darkMode ∧
     (runD []).greyMode = (runD [.border true]).greyMode ∧
     (runD []).fastRefresh = (runD [.border true]).fastRefresh ∧
     (runD []).fullRefreshStored = (runD [.border true]).fullRefreshStored ∧
     fullRefreshGet (runD []) = fullRefreshGet (runD [.border true]) ∧
     (runD []).initialRefresh = (runD [.border true]).initialRefresh ∧
     (runD []).FIRST_COLUMN = (runD [.border true]).FIRST_COLUMN ∧
     (runD []).LAST_COLUMN = (runD [.border true]).LAST_COLUMN ∧
     (runD []).FIRST_ROW = (runD [.border true]).FIRST_ROW ∧
     (runD []).LAST_ROW = (runD [.border true]).LAST_ROW ∧
     (runD []).X_WINDOW_START = (runD [.border true]).X_WINDOW_START ∧
     (runD []).X_WINDOW_END = (runD [.border true]).X_WINDOW_END ∧
     (runD []).Y_WINDOW_START = (runD [.border true]).Y_WINDOW_START ∧
     (runD []).Y_WINDOW_END = (runD [.border true]).Y_WINDOW_END ∧
     rebuildSeq (runD []) ≠ rebuildSeq (runD [.border true])) ∧
    ((runD [.window 0 0 199 199]).darkMode = (runD [.window 1 0 199 199]).darkMode ∧
     (runD [.window 0 0 199 199]).greyMode = (runD [.window 1 0 199 199]).greyMode ∧
     (runD [.window 0 0 199 199]).fastRefresh = (runD [.window 1 0 199 199]).fastRefresh ∧
     fullRefreshGet (runD [.window 0 0 199 199]) = fullRefreshGet (runD [.window 1 0 199 199]) ∧
     (runD [.window 0 0 199 199]).initialRefresh = (runD [.window 1 0 199 199]).initialRefresh ∧
     (runD [.window 0 0 199 199]).FIRST_COLUMN ≠ (runD [.window 1 0 199 199]).FIRST_COLUMN ∧
     rebuildSeq (runD [.window 0 0 199 199]) = rebuildSeq (runD [.window 1 0 199 199])) := by
  decide

/-- **C3** (amended).  The built sequence is a pure function of the flag
tuple *extended with `invertBorder`* and of the stored window registers: any
two in-sync driver states agreeing on (darkMode, greyMode, invertBorder,
fastRefresh, effective fullRefresh, initialRefresh, window registers) build
byte-identical sequences.  (Changing a single input need not change the
output, as the counterexample shows.) -/
theorem c3_sequence_pure_function (s1 s2 : DisplayState)
    (w1 : wellFormedD s1) (w2 : wellFormedD s2)
    (hdark : s1.darkMode = s2.darkMode)
    (hgrey : s1.greyMode = s2.greyMode)
    (hinv : s1.invertBorder = s2.invertBorder)
    (hfast : s1.fastRefresh = s2.fastRefresh)
    (hfull : fullRefreshGet s1 = fullRefreshGet s2)
    (hinit : s1.initialRefresh = s2.initialRefresh)
    (hxs : s1.X_WINDOW_START = s2.X_WINDOW_START)
    (hxe : s1.X_WINDOW_END = s2.X_WINDOW_END)
    (hys : s1.Y_WINDOW_START = s2.Y_WINDOW_START)
    (hye : s1.Y_WINDOW_END = s2.Y_WINDOW_END) :
    rebuildSeq s1 = rebuildSeq s2 := by
  obtain ⟨hc1, hb1, hu1⟩ := w1
  obtain ⟨hc2, hb2, hu2⟩ := w2
  have hcm : s1.COLOUR_MODE = s2.COLOUR_MODE := by rw [hc1, hc2, hdark, hgrey]
  have hbw : s1.BORDER_WAVEFORM = s2.BORDER_WAVEFORM := by rw [hb1, hb2, hdark, hinv]
  have hum : seqUpdateMode s1 = seqUpdateMode s2 := by
    unfold seqUpdateMode
    rw [hinit, hu1, hu2, hfast]
  simp only [rebuildSeq, baseSeg, lutSeg, ghostSeg, winSeg, winHead, dblSeg, altColourOf]
  rw [hcm, hbw, hum, hfull, hdark, hgrey, hfast, hxs, hxe, hys, hye]

/-- Witness for the amended C3: a fresh driver and one whose (ineffective,
because `initialRefresh` is still set) `fullRefresh` flag was stored agree on
all the listed inputs and build the same bytes. -/
theorem c3_sequence_pure_function_witness :
    rebuildSeq (runD []) = rebuildSeq (runD [.full true]) :=
  c3_sequence_pure_function _ _ (by decide) (by decide) (by decide) (by decide)
    (by decide) (by decide) (by decide) (by decide) (by decide) (by decide)
    (by decide) (by decide)

/-- **C4** (confirmed).  Over every run of caller-visible driver operations
from construction: `initialRefresh` is true exactly while no (successful)
`refresh` has executed; and for the first `refresh` of any run, the sequence
built and applied during that call is the one computed with
`initialRefresh` still set, whose update-sequence-control byte is
`SLOW_UPDATE` regardless of the `fastRefresh`/`fullRefresh` settings in
`pre`. -/
theorem c4_initialRefresh_protocol (acts pre : List DAction)
    (hpre : ∀ a ∈ pre, a ≠ DAction.refresh) :
    ((runD acts).initialRefresh = true ↔ ∀ a ∈ acts, a ≠ DAction.refresh) ∧
    (runD (pre ++ [DAction.refresh])).updateSequence = some (rebuildSeq (runD pre)) ∧
    seqUpdateMode (runD pre) = SLOW_UPDATE ∧
    (∃ u v, rebuildSeq (runD pre) = u ++ [CMD_UPDATE_SEQUENCE, 1, SLOW_UPDATE] ++ v) := by
  have hinitD : initD.initialRefresh = true := rfl
  have key : ∀ l : List DAction, (runD l).initialRefresh = l.all (fun a => !isRefreshA a) := by
    intro l
    rw [runD, foldl_initialRefresh, hinitD, Bool.true_and]
  have hiff : ∀ l : List DAction,
      ((runD l).initialRefresh = true ↔ ∀ a ∈ l, a ≠ DAction.refresh) := by
    intro l
    rw [key, List.all_eq_true]
    constructor
    · intro h a ha
      have := h a ha
      cases a <;> simp_all [isRefreshA]
    · intro h a ha
      have := h a ha
      cases a <;> simp_all [isRefreshA]
  have hpreInit : (runD pre).initialRefresh = true := (hiff pre).mpr hpre
  have hdirty : (runD pre).modeChanged = true :=
    foldl_modeChanged pre initD rfl hpre
  have hseq : (runD (pre ++ [DAction.refresh])).updateSequence =
      some (rebuildSeq (runD pre)) := by
    rw [runD, List.foldl_append]
    show (applyA DAction.refresh (runD pre)).updateSequence = _
    show (refreshD (runD pre)).updateSequence = _
    unfold refreshD
    rw [if_pos hdirty]
    by_cases h : (rebuildUpdateSequence (runD pre)).initialRefresh
    · rw [if_pos (by simp [h])]
      rfl
    · rw [if_neg (by simp [h])]
      rfl
  have hmode : seqUpdateMode (runD pre) = SLOW_UPDATE := by
    unfold seqUpdateMode
    rw [hpreInit]
    rfl
  obtain ⟨u, v, hd⟩ := rebuildSeq_updateMode_decomp (runD pre)
  exact ⟨hiff acts, hseq, hmode, ⟨u, v, by rw [hd, hmode]⟩⟩

/-- Witness for C4 at a concrete run: one mode change before the first
refresh, with fast refresh enabled from construction. -/
theorem c4_initialRefresh_protocol_witness :
    (((runD [DAction.dark true]).initialRefresh = true ↔
        ∀ a ∈ [DAction.dark true], a ≠ DAction.refresh) ∧
     (runD ([DAction.full false] ++ [DAction.refresh])).updateSequence =
        some (rebuildSeq (runD [DAction.full false])) ∧
     seqUpdateMode (runD [DAction.full false]) = SLOW_UPDATE ∧
     (∃ u v, rebuildSeq (runD [DAction.full false]) =
        u ++ [CMD_UPDATE_SEQUENCE, 1, SLOW_UPDATE] ++ v)) :=
  c4_initialRefresh_protocol [DAction.dark true] [DAction.full false]
    (by intro a ha; simp at ha; simp [ha])

/-- **C5** (refuting evaluation).  The claim says the emitted X window bytes
equal the first/last column divided by 8.  `setWindow` computes them with
`>> 8` instead: after `setWindow(0, 0, 199, 199)` the built sequence carries
X window bytes 0,0 where the byte-granular values would be 0,24 -- the very
values the class-level defaults (`199 >> 3 = 24`, used by `__init__`) give
for the same full-screen window.  The row bytes do keep pixel granularity
(0, 0, 199, 0 little-endian). -/
theorem c5_setWindow_column_granularity :
    (runD [.window 0 0 199 199]).X_WINDOW_START = 0 ∧
    (runD [.window 0 0 199 199]).X_WINDOW_END = 0 ∧
    199 / 8 = 24 ∧ (0 : Nat) ≠ 24 ∧
    initD.X_WINDOW_END = 24 ∧
    rebuildSeq (runD [.window 0 0 199 199]) =
      [18, 128, 20, 1, 3, 199, 0, 0, 60, 1, 1, 24, 1, 128, 33, 2, 72, 0, 17, 1, 3] ++
      [CMD_X_WINDOW, 2, 0, 0,
       CMD_Y_WINDOW, 4, 0, 0, 199 &&& 0xFF, (199 >>> 8) &&& 0xFF] ++
      [78, 1, 0, 79, 2, 0, 0, 34, 1, 247] := by
  refine ⟨rfl, rfl, rfl, by decide, rfl, by decide⟩

/-- **C6** (counterexample).  The claim says `_loadMainConfig` rejects every
zero-length buffer; the source's guards (`len >= 0x2000`, `len % 8 != 0`)
both pass for length 0, the chunk loop runs zero times, and the call returns
normally having written nothing. -/
theorem c6_counterexample :
    loadMainConfig (fun _ d => d) false [] = .ok [] ∧ ([] : List Nat).length = 0 :=
  ⟨rfl, rfl⟩

/-- **C6** (amended).  `_loadMainConfig` fails fast (before any chunk
traffic) when low-power mode is enabled; rejects buffers of length ≥ 0x2000
or length not a multiple of 8; *accepts* a zero-length buffer as a no-op;
and for every accepted buffer writes each 8-byte chunk at its offset,
failing with the config-verify error as soon as any readback differs. -/
theorem c6_loadMainConfig_guards (rb : Nat → List Nat → List Nat) (config : List Nat) :
    (loadMainConfig rb true config =
      .error (.runtimeError "ACCEL: Cannot load config in low power mode.")) ∧
    (0x2000 ≤ config.length →
      loadMainConfig rb false config = .error (.runtimeError "ACCEL: Config too large.")) ∧
    (config.length < 0x2000 → config.length % 8 ≠ 0 →
      loadMainConfig rb false config =
        .error (.runtimeError "ACCEL: Config size must be a multiple of eight.")) ∧
    (config.length % 8 = 0 → config.length < 0x2000 →
      (∀ off ∈ chunkOffsets config, rb off (chunkAt config off) = chunkAt config off) →
      loadMainConfig rb false config =
        .ok ((chunkOffsets config).map fun off => (off, chunkAt config off))) ∧
    (config.length % 8 = 0 → config.length < 0x2000 →
      (∃ off ∈ chunkOffsets config, rb off (chunkAt config off) ≠ chunkAt config off) →
      loadMainConfig rb false config =
        .error (.runtimeError "ACCEL: Config verify failed.")) := by
  refine ⟨rfl, ?_, ?_, ?_, ?_⟩
  · intro h
    unfold loadMainConfig
    rw [if_neg (by simp), if_pos h]
  · intro hlt hmod
    unfold loadMainConfig
    rw [if_neg (by simp), if_neg (by omega), if_pos hmod]
  · intro hmod hlt hok
    unfold loadMainConfig
    rw [if_neg (by simp), if_neg (by omega), if_neg (by simp [hmod])]
    exact loadChunks_ok rb config _ (chunkOffsets_le config hmod hlt) hok
  · intro hmod hlt hbad
    unfold loadMainConfig
    rw [if_neg (by simp), if_neg (by omega), if_neg (by simp [hmod])]
    exact loadChunks_err rb config _ (chunkOffsets_le config hmod hlt) hbad

/-- Witness for the amended C6, exercising each branch at concrete buffers:
low-power rejection, an 8192-byte buffer, a 3-byte buffer, an accepted
8-byte buffer on an honest bus, and the same buffer on a bus whose readback
always prepends a byte. -/
theorem c6_loadMainConfig_guards_witness :
    (loadMainConfig (fun _ d => d) true [1, 2, 3, 4, 5, 6, 7, 8] =
      .error (.runtimeError "ACCEL: Cannot load config in low power mode.")) ∧
    (loadMainConfig (fun _ d => d) false (List.replicate 0x2000 0) =
      .error (.runtimeError "ACCEL: Config too large.")) ∧
    (loadMainConfig (fun _ d => d) false [1, 2, 3] =
      .error (.runtimeError "ACCEL: Config size must be a multiple of eight.")) ∧
    (loadMainConfig (fun _ d => d) false [1, 2, 3, 4, 5, 6, 7, 8] =
      .ok [(0, [1, 2, 3, 4, 5, 6, 7, 8])]) ∧
    (loadMainConfig (fun _ d => 0 :: d) false [1, 2, 3, 4, 5, 6, 7, 8] =
      .error (.runtimeError "ACCEL: Config verify failed.")) := by
  refine ⟨(c6_loadMainConfig_guards _ _).1,
    (c6_loadMainConfig_guards _ _).2.1 (by rw [List.length_replicate]),
    (c6_loadMainConfig_guards _ _).2.2.1 (by decide) (by decide),
    ?_, ?_⟩
  · exact ((c6_loadMainConfig_guards (fun _ d => d) [1, 2, 3, 4, 5, 6, 7, 8]).2.2.2.1
      (by decide) (by decide) (fun off _ => rfl)).trans (by decide)
  · exact (c6_loadMainConfig_guards (fun _ d => 0 :: d) [1, 2, 3, 4, 5, 6, 7, 8]).2.2.2.2
      (by decide) (by decide) ⟨0, by decide, by exact List.cons_ne_self 0 _⟩

/-- **C7** (counterexample).  The claim says every numeric-table key whose
numeral part cannot parse fails with the lookup error.  For the key `'hz'`
the unit stripping leaves the empty string and the metric-prefix peek
`key[-1]` raises `IndexError` before the numeral is ever parsed -- a
different exception class from the `RuntimeError` the lookup failures
raise. -/
theorem c7_counterexample :
    lookupT "data rate" (some "hz") = .error .indexError := by decide

/-- **C7** (amended).  `lookup` fails (never returns a code) for an unknown
table, a `None`/empty key, a numeric key whose numeral does not parse, a
numeric key whose scaled value is not in the table, and a word key absent
from the table -- with the lookup `RuntimeError` in each case *except* a
numeric key that is empty after unit stripping, which fails with
`IndexError` from `key[-1]` instead. -/
theorem c7_lookup_error_cases :
    (∀ t k, opts.lookup (normName t) = none →
      lookupT t k = .error (.runtimeError ("Lookup table " ++ normName t ++ " not found."))) ∧
    (∀ t tv, opts.lookup (normName t) = some tv →
      lookupT t none = .error (.runtimeError "Blank key.") ∧
      lookupT t (some "") = .error (.runtimeError "Blank key.")) ∧
    (∀ k, k ≠ "" → stripUnit "hz" (normName k) = "" →
      lookupT "data rate" (some k) = .error .indexError) ∧
    (∀ k e, k ≠ "" → numericKeyVal (some "hz") (normName k) = .error e →
      lookupT "data rate" (some k) = .error e) ∧
    (∀ k q, k ≠ "" → numericKeyVal (some "hz") (normName k) = .ok q →
      lookupDec q dataRateVals = none →
      lookupT "data rate" (some k) =
        .error (.runtimeError "Key not found in lookup table datarate.")) ∧
    (∀ k, k ≠ "" → cmdVals.lookup (normName k) = none →
      lookupT "cmd" (some k) =
        .error (.runtimeError "Key not found in lookup table cmd.")) := by
  have hnmdr : normName "data rate" = "datarate" := by decide
  have hdr2 : opts.lookup "datarate" =
      some (TableVals.numeric (some "hz") dataRateVals) := by decide
  have hnmc : normName "cmd" = "cmd" := by decide
  have hcmd2 : opts.lookup "cmd" = some (TableVals.word cmdVals) := by decide
  have main4 : ∀ k e, k ≠ "" → numericKeyVal (some "hz") (normName k) = .error e →
      lookupT "data rate" (some k) = .error e := by
    intro k e hk hne
    simp only [lookupT, hnmdr, hdr2, tableLookup, Option.getD_some]
    rw [if_neg (by simp [hk])]
    rw [hne]
  refine ⟨?_, ?_, ?_, main4, ?_, ?_⟩
  · intro t k h
    unfold lookupT
    rw [h]
  · intro t tv h
    constructor
    · unfold lookupT
      rw [h]
      show tableLookup (normName t) tv none = _
      unfold tableLookup
      rw [if_pos (Or.inl rfl)]
    · unfold lookupT
      rw [h]
      show tableLookup (normName t) tv (some "") = _
      unfold tableLookup
      rw [if_pos (Or.inr rfl)]
  · intro k hk hstrip
    refine main4 k .indexError hk ?_
    simp [numericKeyVal, hstrip]
  · intro k q hk hok hnone
    simp only [lookupT, hnmdr, hdr2, tableLookup, Option.getD_some]
    rw [if_neg (by simp [hk])]
    rw [hok]
    simp only [hnone]
    rfl
  · intro k hk hnone
    simp only [lookupT, hnmc, hcmd2, tableLookup, Option.getD_some]
    rw [if_neg (by simp [hk])]
    rw [hnone]
    rfl

/-- Witness for the amended C7, one concrete input per failure case. -/
theorem c7_lookup_error_cases_witness :
    (lookupT "bogus" (some "x") =
      .error (.runtimeError ("Lookup table " ++ normName "bogus" ++ " not found."))) ∧
    (lookupT "data rate" none = .error (.runtimeError "Blank key.") ∧
     lookupT "data rate" (some "") = .error (.runtimeError "Blank key.")) ∧
    (lookupT "data rate" (some "hzs") = .error .indexError) ∧
    (lookupT "data rate" (some "abc") =
      .error (.runtimeError "Key abc is not a valid number.")) ∧
    (lookupT "data rate" (some "3 Hz") =
      .error (.runtimeError "Key not found in lookup table datarate.")) ∧
    (lookupT "cmd" (some "xyz") =
      .error (.runtimeError "Key not found in lookup table cmd.")) :=
  ⟨c7_lookup_error_cases.1 "bogus" (some "x") (by decide),
   c7_lookup_error_cases.2.1 "data rate"
     (TableVals.numeric (some "hz") dataRateVals) (by decide),
   c7_lookup_error_cases.2.2.1 "hzs" (by decide) (by decide),
   c7_lookup_error_cases.2.2.2.1 "abc" _ (by decide) (by decide),
   c7_lookup_error_cases.2.2.2.2.1 "3 Hz" ⟨3, 0⟩ (by decide) (by decide) (by decide),
   c7_lookup_error_cases.2.2.2.2.2 "xyz" (by decide) (by decide)⟩

/-- **C8** (confirmed).  If `reset` runs with a correctly sized config
buffer but every burst readback differs from the written chunk, it raises
the config-verify error; the state it leaves has low-power mode disabled
(the step that would re-enable it is never reached) and none of the
post-init defaults applied: the accelerometer is still disabled and data
rate, bandwidth and range still hold their soft-reset values. -/
theorem c8_reset_verify_failure (env : BusEnv) (config : List Nat) (s0 : AccelState)
    (hid : env.deviceId = BMA423_ID)
    (hlen : 0 < config.length)
    (hmul : config.length % 8 = 0)
    (hmax : config.length < 0x2000)
    (hrb : ∀ off d, env.rb off d ≠ d) :
    (resetA env config s0).result =
      .error (.runtimeError "ACCEL: Config verify failed.") ∧
    lowPowerMode (resetA env config s0).state = false ∧
    (resetA env config s0).state.accEn = false ∧
    (resetA env config s0).state.accOdr = powerOnState.accOdr ∧
    (resetA env config s0).state.accBwp = powerOnState.accBwp ∧
    (resetA env config s0).state.accRange = powerOnState.accRange := by
  have hcmd : runCmdSoftReset s0 = .ok powerOnState := by
    have h : lookupT "cmd" (some "softReset") = .ok (.nat 0xB6) := by decide
    simp [runCmdSoftReset, h]
  have h0mem : 0 ∈ chunkOffsets config := by
    unfold chunkOffsets
    exact List.mem_map.mpr ⟨0, List.mem_range.mpr (by omega), by norm_num⟩
  have hload : loadMainConfig env.rb false config =
      .error (.runtimeError "ACCEL: Config verify failed.") := by
    unfold loadMainConfig
    rw [if_neg (by simp), if_neg (by omega), if_neg (by simp [hmul])]
    exact loadChunks_err env.rb config _ (chunkOffsets_le config hmul hmax)
      ⟨0, h0mem, hrb 0 _⟩
  unfold resetA
  rw [if_neg (by simp [hid]), hcmd]
  simp only [setLowPowerMode, lowPowerMode, Bool.false_and]
  rw [hload]
  exact ⟨rfl, rfl, rfl, rfl, rfl, rfl⟩

/-- Witness for C8: an 8-byte config on a bus whose readback always prepends
a byte (so every verify mismatches). -/
theorem c8_reset_verify_failure_witness :
    ((resetA ⟨0x13, fun _ d => 0 :: d, 0x01, false⟩ [1, 2, 3, 4, 5, 6, 7, 8]
        powerOnState).result =
      .error (.runtimeError "ACCEL: Config verify failed.") ∧
     lowPowerMode (resetA ⟨0x13, fun _ d => 0 :: d, 0x01, false⟩ [1, 2, 3, 4, 5, 6, 7, 8]
        powerOnState).state = false ∧
     (resetA ⟨0x13, fun _ d => 0 :: d, 0x01, false⟩ [1, 2, 3, 4, 5, 6, 7, 8]
        powerOnState).state.accEn = false ∧
     (resetA ⟨0x13, fun _ d => 0 :: d, 0x01, false⟩ [1, 2, 3, 4, 5, 6, 7, 8]
        powerOnState).state.accOdr = powerOnState.accOdr ∧
     (resetA ⟨0x13, fun _ d => 0 :: d, 0x01, false⟩ [1, 2, 3, 4, 5, 6, 7, 8]
        powerOnState).state.accBwp = powerOnState.accBwp ∧
     (resetA ⟨0x13, fun _ d => 0 :: d, 0x01, false⟩ [1, 2, 3, 4, 5, 6, 7, 8]
        powerOnState).state.accRange = powerOnState.accRange) :=
  c8_reset_verify_failure ⟨0x13, fun _ d => 0 :: d, 0x01, false⟩
    [1, 2, 3, 4, 5, 6, 7, 8] powerOnState rfl (by decide) (by decide) (by decide)
    (fun _ d => List.cons_ne_self 0 d)

/-- **C9** (confirmed).  For every signed 12-bit raw reading and every range
code, reading the axis back from its register byte pair yields the raw value
(4-bit shift, 12-bit sign extension), and `acceleration` scales each of the
three axes by exactly `(raw + 1) / 2 ^ (10 - rangeCode)`. -/
theorem c9_acceleration_scaling (r : Int) (rangeCode : Nat)
    (hlo : -2048 ≤ r) (hhi : r < 2048) (hrange : rangeCode < 4) :
    readAccAxis (encode12 r).1 (encode12 r).2 = r ∧
    accelerationFromRegs (encode12 r).1 (encode12 r).2 (encode12 r).1 (encode12 r).2
        (encode12 r).1 (encode12 r).2 rangeCode =
      (((r : ℚ) + 1) / 2 ^ (10 - rangeCode),
       ((r : ℚ) + 1) / 2 ^ (10 - rangeCode),
       ((r : ℚ) + 1) / 2 ^ (10 - rangeCode)) := by
  have h1 : readAccAxis (encode12 r).1 (encode12 r).2 = r := by
    unfold readAccAxis encode12 signExtend12
    simp only [Nat.shiftLeft_eq, Nat.shiftRight_eq_div_pow]
    split <;> omega
  refine ⟨h1, ?_⟩
  unfold accelerationFromRegs
  rw [h1]
  rfl

/-- Witness for C9 at raw value 0 and range code 0, together with the exact
decimal the claim names: `(0 + 1) / 2 ^ 10 = 0.0009765625` g. -/
theorem c9_acceleration_scaling_witness :
    (readAccAxis (encode12 0).1 (encode12 0).2 = 0 ∧
     accelerationFromRegs (encode12 0).1 (encode12 0).2 (encode12 0).1 (encode12 0).2
        (encode12 0).1 (encode12 0).2 0 =
       (((0 : ℚ) + 1) / 2 ^ (10 - 0),
        ((0 : ℚ) + 1) / 2 ^ (10 - 0),
        ((0 : ℚ) + 1) / 2 ^ (10 - 0))) ∧
    ((0 : ℚ) + 1) / 2 ^ (10 - 0) = 0.0009765625 :=
  ⟨c9_acceleration_scaling 0 0 (by decide) (by decide) (by decide), by norm_num⟩

/-- **C10** (confirmed).  The `fullRefresh` getter is the disjunction of the
stored flag and `initialRefresh`; while `initialRefresh` is set, assigning
`fullRefresh = False` stores the flag but the getter still reads true, and
the built sequence therefore omits the partial-update LUT block, the
ghost-suppression block and the double-flash pass: it is exactly the base
block followed by the window block. -/
theorem c10_fullRefresh_getter_overrides (s : DisplayState)
    (h : s.initialRefresh = true) :
    fullRefreshGet s = (s.fullRefreshStored || s.initialRefresh) ∧
    fullRefreshGet (setFullRefresh false s) = true ∧
    (setFullRefresh false s).fullRefreshStored = false ∧
    lutSeg (setFullRefresh false s) = [] ∧
    ghostSeg (setFullRefresh false s) = [] ∧
    dblSeg (setFullRefresh false s) = [] ∧
    rebuildSeq (setFullRefresh false s) =
      baseSeg (setFullRefresh false s) ++ winSeg (setFullRefresh false s) := by
  have hfull : fullRefreshGet (setFullRefresh false s) = true := by
    simp [fullRefreshGet, setFullRefresh, h]
  refine ⟨rfl, hfull, rfl, ?_, ?_, ?_, ?_⟩
  · simp [lutSeg, hfull]
  · simp [ghostSeg, hfull]
  · simp [dblSeg, hfull]
  · simp [rebuildSeq, lutSeg, ghostSeg, dblSeg, hfull]

/-- Witness for C10 at the freshly constructed display (where
`initialRefresh` is still set). -/
theorem c10_fullRefresh_getter_overrides_witness :
    fullRefreshGet initD = (initD.fullRefreshStored || initD.initialRefresh) ∧
    fullRefreshGet (setFullRefresh false initD) = true ∧
    (setFullRefresh false initD).fullRefreshStored = false ∧
    lutSeg (setFullRefresh false initD) = [] ∧
    ghostSeg (setFullRefresh false initD) = [] ∧
    dblSeg (setFullRefresh false initD) = [] ∧
    rebuildSeq (setFullRefresh false initD) =
      baseSeg (setFullRefresh false initD) ++ winSeg (setFullRefresh false initD) :=
  c10_fullRefresh_getter_overrides initD rfl

end WatchyLib
